import Mathlib

/-!
Verification of the variable-mapping wizard (`src/app.py`): a shallow
embedding of its catalogue query engine and wizard state machine, with
theorems checking the specification's claims against it.

Python strings are modelled as Lean `String`; Python's `str.lower`,
`str.strip` and the slash-join split are given explicit structurally
recursive definitions over the character list so that every definition
is executable by the kernel.
-/

/-- Model of Python `str.lower()` (ASCII case folding suffices for the
catalogue data and matches `Char.toLower` on it). -/
def pyLower (s : String) : String := ⟨s.data.map Char.toLower⟩

/-- Model of Python `str.strip()`: remove leading and trailing whitespace. -/
def pyStrip (s : String) : String :=
  ⟨(((s.data.dropWhile Char.isWhitespace).reverse).dropWhile Char.isWhitespace).reverse⟩

/-- Split a character list at the first occurrence of the separator
`' ' :: '/' :: ' '` (the separator used by the export-row ID join),
returning the part before and the part after. -/
def splitJoinChars : List Char → List Char × List Char
  | [] => ([], [])
  | ' ' :: '/' :: ' ' :: rest => ([], rest)
  | c :: rest =>
    let p := splitJoinChars rest
    (c :: p.1, p.2)

/-- One record of the static variable catalogue (`VARIABLES_CATALOGUE`
entries in `src/app.py`). -/
structure VariableRecord where
  id : String
  name : String
  organ_system : String
  group : String
  epic_id : String
  pdms_id : String
  unit : String
deriving DecidableEq

/-- The nine-row seed catalogue, exactly as in `src/app.py`. -/
def VARIABLES_CATALOGUE : List VariableRecord :=
  [ { id := "hr-001", name := "Heart Rate", organ_system := "Cardiology", group := "Heart",
      epic_id := "E-HR-001", pdms_id := "P-HR-001", unit := "bpm" },
    { id := "bp-001", name := "Blood Pressure", organ_system := "Cardiology", group := "Heart",
      epic_id := "E-BP-001", pdms_id := "P-BP-001", unit := "mmHg" },
    { id := "co-001", name := "Cardiac Output", organ_system := "Cardiology", group := "Heart",
      epic_id := "E-CO-001", pdms_id := "P-CO-001", unit := "L/min" },
    { id := "qt-001", name := "QT Interval", organ_system := "Cardiology", group := "ECG",
      epic_id := "E-QT-001", pdms_id := "P-QT-001", unit := "ms" },
    { id := "spo2-001", name := "SpO2", organ_system := "Respiratory", group := "Lungs",
      epic_id := "E-SPO2-001", pdms_id := "P-SPO2-001", unit := "%" },
    { id := "rr-001", name := "Respiratory Rate", organ_system := "Respiratory", group := "Lungs",
      epic_id := "E-RR-001", pdms_id := "P-RR-001", unit := "breaths/min" },
    { id := "gcs-001", name := "Glasgow Coma Scale", organ_system := "Neurology", group := "Brain",
      epic_id := "E-GCS-001", pdms_id := "P-GCS-001", unit := "score" },
    { id := "mf-epic-001", name := "Motor Function (EPIC only)", organ_system := "Neurology",
      group := "Motor", epic_id := "E-MF-001", pdms_id := "", unit := "score" },
    { id := "mf-pdms-001", name := "Motor Function (PDMS only)", organ_system := "Neurology",
      group := "Motor", epic_id := "", pdms_id := "P-MF-001", unit := "score" } ]

/-- One row of the export table; the fields are the seven columns of
`st.session_state.export_table`. -/
structure ExportRow where
  Variable : String
  Source : String
  ID : String
  Unit : String
  Organ_System : String
  Group : String
  Status : String
deriving DecidableEq

/-- The wizard session state held in `st.session_state`.  The imported
configuration DataFrame is modelled by its `Variable` column (the only
column the handlers read); `selected_variable_ids` models the Python
set as a duplicate-free list. -/
structure WizardSession where
  step : Nat
  project_type : String
  imported_config : Option (List String)
  selected_sources_epic : Bool
  selected_sources_pdms : Bool
  selected_variable_ids : List String
  export_table : List ExportRow
deriving DecidableEq

/-- `init_state()`: the session defaults. -/
def init_session : WizardSession :=
  { step := 1, project_type := "New project", imported_config := none,
    selected_sources_epic := false, selected_sources_pdms := false,
    selected_variable_ids := [], export_table := [] }

/-- `go_next()`: increment the step, clamped at 4. -/
def go_next (s : WizardSession) : WizardSession :=
  { s with step := min (s.step + 1) 4 }

/-- `go_back()`: decrement the step, clamped at 1. -/
def go_back (s : WizardSession) : WizardSession :=
  { s with step := max (s.step - 1) 1 }

/-- `filter_catalogue_by_sources()`: filter the catalogue by the selected
sources, with the same four branches as the Python code. -/
def filter_catalogue_by_sources (epic pdms : Bool) : List VariableRecord :=
  if epic && pdms then
    VARIABLES_CATALOGUE.filter (fun r => (r.epic_id != "") || (r.pdms_id != ""))
  else if epic && !pdms then
    VARIABLES_CATALOGUE.filter (fun r => r.epic_id != "")
  else if pdms && !epic then
    VARIABLES_CATALOGUE.filter (fun r => r.pdms_id != "")
  else
    VARIABLES_CATALOGUE

/-- The `src_parts` list built for a step-3 row: `"EPIC"` when `epic_id`
is truthy, then `"PDMS"` when `pdms_id` is truthy. -/
def src_parts (r : VariableRecord) : List String :=
  (if r.epic_id != "" then ["EPIC"] else []) ++ (if r.pdms_id != "" then ["PDMS"] else [])

/-- The `src_label` shown in a step-3 checkbox: `"/".join(src_parts)` when
non-empty, else the en dash. -/
def src_label (r : VariableRecord) : String :=
  let parts := src_parts r
  if parts.isEmpty then "–" else String.intercalate "/" parts

/-- The step-3 checkbox label: `f"{name}  ·  {unit}  [{src_label}]"`. -/
def checkbox_label (r : VariableRecord) : String :=
  r.name ++ "  ·  " ++ r.unit ++ "  [" ++ src_label r ++ "]"

/-- The export-row derivation performed in the step-3 Next handler for one
catalogue record (`toExportRow` in the specification). -/
def toExportRow (r : VariableRecord) : ExportRow :=
  let has_epic := r.epic_id != ""
  let has_pdms := r.pdms_id != ""
  if has_epic && has_pdms then
    { Variable := r.name, Source := "Both", ID := r.epic_id ++ " / " ++ r.pdms_id,
      Unit := r.unit, Organ_System := r.organ_system, Group := r.group, Status := "Published" }
  else if has_epic then
    { Variable := r.name, Source := "EPIC", ID := r.epic_id,
      Unit := r.unit, Organ_System := r.organ_system, Group := r.group, Status := "Published" }
  else if has_pdms then
    { Variable := r.name, Source := "PDMS", ID := r.pdms_id,
      Unit := r.unit, Organ_System := r.organ_system, Group := r.group, Status := "Published" }
  else
    { Variable := r.name, Source := "-", ID := "-",
      Unit := r.unit, Organ_System := r.organ_system, Group := r.group, Status := "Published" }

/-- `CATALOGUE_DF[CATALOGUE_DF["id"] == vid].iloc[0]`: the first catalogue
record with the given id, `none` when there is no such record (in Python,
`.iloc[0]` on an empty selection raises). -/
def lookup_record (vid : String) : Option VariableRecord :=
  VARIABLES_CATALOGUE.find? (fun r => r.id == vid)

/-- The row-building loop of the step-3 Next handler: one export row per
selected id, in selection order; `none` models the exception raised when a
selected id has no catalogue record. -/
def build_export_rows : List String → Option (List ExportRow)
  | [] => some []
  | vid :: rest =>
    match lookup_record vid, build_export_rows rest with
    | some r, some rows => some (toExportRow r :: rows)
    | _, _ => none

/-- The step-1 gate (`can_next`): false exactly when the project type is
"Load existing configuration" and no configuration has been imported. -/
def step1_gate (s : WizardSession) : Bool :=
  !((s.project_type == "Load existing configuration") && s.imported_config.isNone)

/-- The pre-selection performed by the step-1 Next handler when an imported
configuration is present: catalogue ids whose lower-cased name occurs among
the stripped, lower-cased imported `Variable` values. -/
def preselect_from_import (s : WizardSession) : WizardSession :=
  match s.imported_config with
  | none => s
  | some vars =>
    let imported_names := vars.map (fun v => pyLower (pyStrip v))
    let preselected_ids :=
      (VARIABLES_CATALOGUE.filter (fun r => imported_names.contains (pyLower r.name))).map
        (fun r => r.id)
    { s with selected_variable_ids := preselected_ids }

/-- The step-1 Next button: runs only when the gate holds (the button is
disabled otherwise), pre-selects from the import, then `go_next()`. -/
def step1_next (s : WizardSession) : WizardSession :=
  if step1_gate s then go_next (preselect_from_import s) else s

/-- The step-2 gate: at least one source selected. -/
def step2_gate (s : WizardSession) : Bool :=
  s.selected_sources_epic || s.selected_sources_pdms

/-- The step-2 Next button: `go_next()` when the gate holds, otherwise the
disabled button leaves the state unchanged. -/
def step2_next (s : WizardSession) : WizardSession :=
  if step2_gate s then go_next s else s

/-- The step-3 gate: `len(selected_ids) > 0`. -/
def step3_gate (s : WizardSession) : Bool :=
  !s.selected_variable_ids.isEmpty

/-- The step-3 Next button: when the gate holds, rebuild the export table
from the current selection and `go_next()`; `none` models the exception on
a selected id missing from the catalogue; a failed gate leaves the state
unchanged. -/
def step3_next (s : WizardSession) : Option WizardSession :=
  if step3_gate s then
    match build_export_rows s.selected_variable_ids with
    | some rows => some (go_next { s with export_table := rows })
    | none => none
  else some s

/-- The step-3 recomputation of the selected ids from the checkbox states
of the source-filtered rows. -/
def recompute_selected (epic pdms : Bool) (checked : String → Bool) : List String :=
  ((filter_catalogue_by_sources epic pdms).filter (fun r => checked r.id)).map (fun r => r.id)

/-- Rendering step 3: store the recomputed selection in the session. -/
def step3_render (checked : String → Bool) (s : WizardSession) : WizardSession :=
  { s with selected_variable_ids :=
      recompute_selected s.selected_sources_epic s.selected_sources_pdms checked }

/-- The step-4 add-variable form submit handler: on a blank name or blank
id, return the warning message and the unchanged table; otherwise append
one row with blank organ system / group defaulted to "General" and
Status "New". -/
def add_variable_submit (table : List ExportRow)
    (var_name source var_id unit organ_system group : String) :
    Option String × List ExportRow :=
  if var_name == "" || var_id == "" then
    (some "Please provide at least a variable name and an ID.", table)
  else
    (none,
      table ++
        [{ Variable := var_name, Source := source, ID := var_id, Unit := unit,
           Organ_System := if organ_system == "" then "General" else organ_system,
           Group := if group == "" then "General" else group, Status := "New" }])

/-- The step-4 "Delete selected" handler: keep the rows whose Variable name
is not among the selected names. -/
def delete_selected (table : List ExportRow) (to_delete : List String) : List ExportRow :=
  table.filter (fun r => !(to_delete.contains r.Variable))

/-- The `Variable` column of the CSV written by the step-4 export; CSV
serialisation and parsing themselves are the opaque I/O collaborators of
the core and are assumed to round-trip the column values. -/
def export_csv_variables (table : List ExportRow) : List String :=
  table.map (fun r => r.Variable)

/-- Modelled from the spec: the "mapped back to a record shape" reading of
an export row used by the idempotence property (§8); `Source = "Both"`
splits the id code at the slash join, the single-source cases put the id
code in the corresponding field. -/
def record_of_export_row (e : ExportRow) : VariableRecord :=
  if e.Source == "Both" then
    let p := splitJoinChars e.ID.data
    { id := "", name := e.Variable, organ_system := e.Organ_System, group := e.Group,
      epic_id := ⟨p.1⟩, pdms_id := ⟨p.2⟩, unit := e.Unit }
  else if e.Source == "EPIC" then
    { id := "", name := e.Variable, organ_system := e.Organ_System, group := e.Group,
      epic_id := e.ID, pdms_id := "", unit := e.Unit }
  else if e.Source == "PDMS" then
    { id := "", name := e.Variable, organ_system := e.Organ_System, group := e.Group,
      epic_id := "", pdms_id := e.ID, unit := e.Unit }
  else
    { id := "", name := e.Variable, organ_system := e.Organ_System, group := e.Group,
      epic_id := "", pdms_id := "", unit := e.Unit }

/-- One user interaction with the wizard, as dispatched by a rerun of the
script. -/
inductive UIEvent where
  | setProjectType (pt : String)
  | setImportedConfig (cfg : Option (List String))
  | setSources (epic pdms : Bool)
  | renderStep3 (checked : String → Bool)
  | clickNext
  | clickBack
  | submitAddRow (n src i u os g : String)
  | clickDeleteSelected (names : List String)

/-- Apply one interaction to the session; widgets act only on the step
that renders them, and the Back button exists only when `step > 1`. -/
def apply_event (s : WizardSession) (e : UIEvent) : WizardSession :=
  match e with
  | .setProjectType pt => if s.step == 1 then { s with project_type := pt } else s
  | .setImportedConfig cfg => if s.step == 1 then { s with imported_config := cfg } else s
  | .setSources epic pdms =>
    if s.step == 2 then
      { s with selected_sources_epic := epic, selected_sources_pdms := pdms }
    else s
  | .renderStep3 checked => if s.step == 3 then step3_render checked s else s
  | .clickNext =>
    match s.step with
    | 1 => step1_next s
    | 2 => step2_next s
    | 3 => (step3_next s).getD s
    | _ => s
  | .clickBack => if 1 < s.step then go_back s else s
  | .submitAddRow n src i u os g =>
    if s.step == 4 then
      { s with export_table := (add_variable_submit s.export_table n src i u os g).2 }
    else s
  | .clickDeleteSelected names =>
    if s.step == 4 then { s with export_table := delete_selected s.export_table names } else s

/-- Run a sequence of interactions from the initial session. -/
def run_events (es : List UIEvent) : WizardSession :=
  es.foldl apply_event init_session

/-- C1: for every combination of the two source flags,
`filter_catalogue_by_sources` returns exactly the catalogue rows
satisfying the stated predicate (both selected: either id non-empty;
EPIC only: `epic_id` non-empty; PDMS only: `pdms_id` non-empty; neither:
the whole catalogue), and against the nine-row seed catalogue this yields
the stated id sets. -/
theorem filter_catalogue_by_sources_spec :
    (∀ r : VariableRecord, r ∈ filter_catalogue_by_sources true true ↔
        r ∈ VARIABLES_CATALOGUE ∧ (r.epic_id ≠ "" ∨ r.pdms_id ≠ "")) ∧
    (∀ r : VariableRecord, r ∈ filter_catalogue_by_sources true false ↔
        r ∈ VARIABLES_CATALOGUE ∧ r.epic_id ≠ "") ∧
    (∀ r : VariableRecord, r ∈ filter_catalogue_by_sources false true ↔
        r ∈ VARIABLES_CATALOGUE ∧ r.pdms_id ≠ "") ∧
    filter_catalogue_by_sources false false = VARIABLES_CATALOGUE ∧
    (filter_catalogue_by_sources true false).map (fun r => r.id) =
      ["hr-001", "bp-001", "co-001", "qt-001", "spo2-001", "rr-001", "gcs-001", "mf-epic-001"] ∧
    (filter_catalogue_by_sources false true).map (fun r => r.id) =
      ["hr-001", "bp-001", "co-001", "qt-001", "spo2-001", "rr-001", "gcs-001", "mf-pdms-001"] ∧
    (filter_catalogue_by_sources true true).map (fun r => r.id) =
      ["hr-001", "bp-001", "co-001", "qt-001", "spo2-001", "rr-001", "gcs-001", "mf-epic-001",
        "mf-pdms-001"] := by
  refine ⟨?_, ?_, ?_, by decide, by decide, by decide, by decide⟩ <;>
    intro r <;> simp [filter_catalogue_by_sources, List.mem_filter]

/-- C4 counterexample: the first seed record is in the catalogue, and its
step-3 checkbox label is `"Heart Rate  ·  bpm  [EPIC/PDMS]"` — not the
claimed `"{organSystem} · {group} · {name} [{sourceTag}]"` format, which
would give `"Cardiology · Heart · Heart Rate [EPIC/PDMS]"`. -/
theorem checkbox_label_counterexample :
    (⟨"hr-001", "Heart Rate", "Cardiology", "Heart", "E-HR-001", "P-HR-001", "bpm"⟩ :
        VariableRecord) ∈ VARIABLES_CATALOGUE ∧
    checkbox_label
        ⟨"hr-001", "Heart Rate", "Cardiology", "Heart", "E-HR-001", "P-HR-001", "bpm"⟩ =
      "Heart Rate  ·  bpm  [EPIC/PDMS]" ∧
    checkbox_label
        ⟨"hr-001", "Heart Rate", "Cardiology", "Heart", "E-HR-001", "P-HR-001", "bpm"⟩ ≠
      "Cardiology · Heart · Heart Rate [EPIC/PDMS]" := by
  refine ⟨by decide, by decide, by decide⟩

/-- C4 amended: the step-3 checkbox label has the format
`"{name}  ·  {unit}  [{sourceTag}]"`, where the source tag is `"EPIC"`,
`"PDMS"`, `"EPIC/PDMS"` (EPIC before PDMS when both ids are present) or
the en dash; the tag is the en dash iff both `epic_id` and `pdms_id` are
empty, which holds for no record of the nine-row seed catalogue. -/
theorem checkbox_label_amended :
    (∀ r : VariableRecord,
      checkbox_label r = r.name ++ "  ·  " ++ r.unit ++ "  [" ++ src_label r ++ "]" ∧
      (r.epic_id ≠ "" → r.pdms_id ≠ "" → src_label r = "EPIC/PDMS") ∧
      (r.epic_id ≠ "" → r.pdms_id = "" → src_label r = "EPIC") ∧
      (r.epic_id = "" → r.pdms_id ≠ "" → src_label r = "PDMS") ∧
      (src_label r = "–" ↔ (r.epic_id = "" ∧ r.pdms_id = ""))) ∧
    (∀ r ∈ VARIABLES_CATALOGUE, src_label r ≠ "–") := by
  constructor
  · intro r
    refine ⟨rfl, ?_, ?_, ?_, ?_⟩
    · intro h1 h2
      simp [src_label, src_parts, h1, h2]
      decide
    · intro h1 h2
      simp [src_label, src_parts, h1, h2]
      decide
    · intro h1 h2
      simp [src_label, src_parts, h1, h2]
      decide
    · by_cases h1 : r.epic_id = "" <;> by_cases h2 : r.pdms_id = "" <;>
        simp [src_label, src_parts, h1, h2] <;> decide
  · decide

/-- C4 amended, witness at the first seed record. -/
theorem checkbox_label_amended_witness :
    src_label
        ⟨"hr-001", "Heart Rate", "Cardiology", "Heart", "E-HR-001", "P-HR-001", "bpm"⟩ =
      "EPIC/PDMS" :=
  (checkbox_label_amended.1
      ⟨"hr-001", "Heart Rate", "Cardiology", "Heart", "E-HR-001", "P-HR-001", "bpm"⟩).2.1
    (by decide) (by decide)

/-- C9: for every catalogue row, mapping the derived export row back to a
record shape and deriving again yields the same `Source` and `ID`. -/
theorem toExportRow_idempotent :
    ∀ r ∈ VARIABLES_CATALOGUE,
      (toExportRow (record_of_export_row (toExportRow r))).Source = (toExportRow r).Source ∧
      (toExportRow (record_of_export_row (toExportRow r))).ID = (toExportRow r).ID := by
  decide

/-- C9 witness at the first seed record. -/
theorem toExportRow_idempotent_witness :
    (toExportRow (record_of_export_row (toExportRow
        ⟨"hr-001", "Heart Rate", "Cardiology", "Heart", "E-HR-001", "P-HR-001", "bpm"⟩))).ID =
      "E-HR-001 / P-HR-001" :=
  (toExportRow_idempotent
      ⟨"hr-001", "Heart Rate", "Cardiology", "Heart", "E-HR-001", "P-HR-001", "bpm"⟩
      (by decide)).2.trans (by decide)

/-- C5: submitting the add-variable form with a blank name or blank id
reports the validation warning and leaves the export table unchanged;
with both non-blank, exactly one row is appended at the end with Status
"New", and a blank organ system or group is replaced by "General". -/
theorem add_variable_submit_spec :
    ∀ (table : List ExportRow) (n src i u os g : String),
      ((n = "" ∨ i = "") →
        add_variable_submit table n src i u os g =
          (some "Please provide at least a variable name and an ID.", table)) ∧
      (n ≠ "" → i ≠ "" →
        (add_variable_submit table n src i u os g).1 = none ∧
        ∃ row : ExportRow,
          (add_variable_submit table n src i u os g).2 = table ++ [row] ∧
          row.Variable = n ∧ row.Source = src ∧ row.ID = i ∧ row.Unit = u ∧
          row.Status = "New" ∧
          (os = "" → row.Organ_System = "General") ∧ (os ≠ "" → row.Organ_System = os) ∧
          (g = "" → row.Group = "General") ∧ (g ≠ "" → row.Group = g)) := by
  intro table n src i u os g
  constructor
  · rintro (h | h) <;> simp [add_variable_submit, h]
  · intro hn hi
    constructor
    · simp [add_variable_submit, hn, hi]
    · refine ⟨{ Variable := n, Source := src, ID := i, Unit := u,
                Organ_System := if os == "" then "General" else os,
                Group := if g == "" then "General" else g, Status := "New" },
              by simp [add_variable_submit, hn, hi], rfl, rfl, rfl, rfl, rfl, ?_, ?_, ?_, ?_⟩
      · intro h; simp [h]
      · intro h; simp [h]
      · intro h; simp [h]
      · intro h; simp [h]

/-- C5 witness: a blank name is rejected and the (empty) table is kept. -/
theorem add_variable_submit_spec_witness :
    add_variable_submit [] "" "EPIC" "X-1" "bpm" "" "" =
      (some "Please provide at least a variable name and an ID.", []) :=
  (add_variable_submit_spec [] "" "EPIC" "X-1" "bpm" "" "").1 (Or.inl rfl)

/-- C6: deleting variables removes exactly the rows whose Variable name is
among the names to remove (occurrence counts drop to zero for removed
names and are preserved otherwise), keeps the remaining rows in their
original relative order (the result is a sublist), and is a no-op when the
name set is empty or matches no row. -/
theorem delete_selected_spec :
    ∀ (table : List ExportRow) (names : List String),
      List.Sublist (delete_selected table names) table ∧
      (∀ r : ExportRow, (delete_selected table names).count r =
        if names.contains r.Variable then 0 else table.count r) ∧
      delete_selected table [] = table ∧
      ((∀ r ∈ table, names.contains r.Variable = false) →
        delete_selected table names = table) := by
  intro table names
  refine ⟨List.filter_sublist table, ?_, ?_, ?_⟩
  · intro r
    by_cases h : names.contains r.Variable = true
    · rw [if_pos h]
      refine List.count_eq_zero.2 ?_
      intro hmem
      have hp := (List.mem_filter.1 hmem).2
      rw [h] at hp
      exact absurd hp (by decide)
    · rw [if_neg h]
      refine List.count_filter ?_
      simp [Bool.not_eq_true] at h
      simp [h]
  · simp [delete_selected]
  · intro h
    refine List.filter_eq_self.2 ?_
    intro r hr
    simpa using h r hr

/-- C6 witness: deleting a name not present leaves the table unchanged. -/
theorem delete_selected_spec_witness :
    delete_selected
        [⟨"Heart Rate", "Both", "E-HR-001 / P-HR-001", "bpm", "Cardiology", "Heart", "Published"⟩]
        ["Absent"] =
      [⟨"Heart Rate", "Both", "E-HR-001 / P-HR-001", "bpm", "Cardiology", "Heart", "Published"⟩] :=
  (delete_selected_spec
      [⟨"Heart Rate", "Both", "E-HR-001 / P-HR-001", "bpm", "Cardiology", "Heart", "Published"⟩]
      ["Absent"]).2.2.2 (by decide)

/-- Helper: a successful run of the export-row building loop produces rows
that correspond one-to-one, in order, to the selected ids. -/
theorem build_export_rows_forall2 :
    ∀ (sel : List String) (rows : List ExportRow),
      build_export_rows sel = some rows →
      List.Forall₂ (fun vid row => ∃ r, lookup_record vid = some r ∧ row = toExportRow r)
        sel rows := by
  intro sel
  induction sel with
  | nil =>
    intro rows h
    simp only [build_export_rows, Option.some.injEq] at h
    rw [← h]
    exact List.Forall₂.nil
  | cons vid rest ih =>
    intro rows h
    simp only [build_export_rows] at h
    cases hl : lookup_record vid with
    | none => rw [hl] at h; simp at h
    | some r =>
      cases hr : build_export_rows rest with
      | none => rw [hl, hr] at h; simp at h
      | some rs =>
        rw [hl, hr] at h
        simp only [Option.some.injEq] at h
        rw [← h]
        exact List.Forall₂.cons ⟨r, hl, rfl⟩ (ih rs hr)

/-- C2: on the step 3 → 4 transition the export table is rebuilt from
scratch — whatever the prior table was, it is overwritten by exactly one
row per selected id, each row derived from its catalogue record by the
stated Source/ID rule, with name, unit, organ system and group passed
through and Status "Published". -/
theorem step3_next_builds_export_table :
    ∀ (s : WizardSession) (rows : List ExportRow),
      s.selected_variable_ids ≠ [] →
      build_export_rows s.selected_variable_ids = some rows →
      (∀ t : List ExportRow,
        step3_next { s with export_table := t } =
          some { s with step := min (s.step + 1) 4, export_table := rows }) ∧
      rows.length = s.selected_variable_ids.length ∧
      List.Forall₂ (fun vid row => ∃ r, lookup_record vid = some r ∧ row = toExportRow r)
        s.selected_variable_ids rows ∧
      (∀ r : VariableRecord,
        (toExportRow r).Variable = r.name ∧ (toExportRow r).Unit = r.unit ∧
        (toExportRow r).Organ_System = r.organ_system ∧ (toExportRow r).Group = r.group ∧
        (toExportRow r).Status = "Published" ∧
        (r.epic_id ≠ "" → r.pdms_id ≠ "" →
          (toExportRow r).Source = "Both" ∧
          (toExportRow r).ID = r.epic_id ++ " / " ++ r.pdms_id) ∧
        (r.epic_id ≠ "" → r.pdms_id = "" →
          (toExportRow r).Source = "EPIC" ∧ (toExportRow r).ID = r.epic_id) ∧
        (r.epic_id = "" → r.pdms_id ≠ "" →
          (toExportRow r).Source = "PDMS" ∧ (toExportRow r).ID = r.pdms_id) ∧
        (r.epic_id = "" → r.pdms_id = "" →
          (toExportRow r).Source = "-" ∧ (toExportRow r).ID = "-")) := by
  intro s rows hne hbuild
  refine ⟨?_, (build_export_rows_forall2 _ _ hbuild).length_eq.symm,
          build_export_rows_forall2 _ _ hbuild, ?_⟩
  · intro t
    have hgate : step3_gate { s with export_table := t } = true := by
      simp only [step3_gate]
      simp [hne]
    simp only [step3_next, hgate, if_true]
    have hb : build_export_rows ({ s with export_table := t }).selected_variable_ids =
        some rows := hbuild
    rw [hb]
    rfl
  · intro r
    by_cases h1 : r.epic_id = "" <;> by_cases h2 : r.pdms_id = "" <;>
      simp [toExportRow, h1, h2]

/-- C2 witness: a concrete step-3 session with one selected id and a
non-empty prior export table. -/
theorem step3_next_builds_export_table_witness :
    step3_next
        { init_session with
          step := 3,
          selected_variable_ids := ["hr-001"],
          export_table := [⟨"Old", "-", "-", "-", "-", "-", "New"⟩] } =
      some
        { init_session with
          step := 4,
          selected_variable_ids := ["hr-001"],
          export_table :=
            [⟨"Heart Rate", "Both", "E-HR-001 / P-HR-001", "bpm", "Cardiology", "Heart",
              "Published"⟩] } := by
  have h :=
    (step3_next_builds_export_table
        { init_session with step := 3, selected_variable_ids := ["hr-001"] }
        [⟨"Heart Rate", "Both", "E-HR-001 / P-HR-001", "bpm", "Cardiology", "Heart",
          "Published"⟩]
        (by decide) (by decide)).1 [⟨"Old", "-", "-", "-", "-", "-", "New"⟩]
  exact h

/-- C3: no forward transition fires while its gate is false — a failed
gate is a silent no-op, never an error; the step-1 gate is equivalent to
"New project, or Load existing with a configuration imported" (for the
two values the radio widget can produce), the step-2 gate to "at least
one source selected", the step-3 gate to "selection non-empty"; a
successful advance increments the step by exactly one, clamped at 4. -/
theorem wizard_gate_transitions :
    ∀ s : WizardSession,
      (step1_gate s = false → step1_next s = s) ∧
      (step1_gate s = true → (step1_next s).step = min (s.step + 1) 4) ∧
      ((s.project_type = "New project" ∨ s.project_type = "Load existing configuration") →
        (step1_gate s = true ↔
          (s.project_type = "New project" ∨
            (s.project_type = "Load existing configuration" ∧
              s.imported_config.isSome = true)))) ∧
      (step2_gate s = false → step2_next s = s) ∧
      (step2_gate s = true ↔
        (s.selected_sources_epic = true ∨ s.selected_sources_pdms = true)) ∧
      (step2_gate s = true → (step2_next s).step = min (s.step + 1) 4) ∧
      (step3_gate s = false → step3_next s = some s) ∧
      (step3_gate s = true ↔ s.selected_variable_ids ≠ []) ∧
      (∀ s2 : WizardSession, step3_next s = some s2 → step3_gate s = true →
        s2.step = min (s.step + 1) 4) := by
  intro s
  refine ⟨?_, ?_, ?_, ?_, ?_, ?_, ?_, ?_, ?_⟩
  · intro h; simp [step1_next, h]
  · intro h
    cases himp : s.imported_config <;>
      simp [step1_next, h, preselect_from_import, himp, go_next]
  · intro hpt
    constructor
    · intro h
      rcases hpt with h1 | h1
      · exact Or.inl h1
      · right
        refine ⟨h1, ?_⟩
        simp [step1_gate, h1] at h
        cases hc : s.imported_config with
        | none => rw [hc] at h; simp at h
        | some v => rfl
    · intro h
      rcases h with h1 | ⟨h1, h2⟩
      · simp [step1_gate, h1]
      · simp [step1_gate, h1, h2]
  · intro h; simp [step2_next, h]
  · simp [step2_gate]
  · intro h; simp [step2_next, h, go_next]
  · intro h; simp [step3_next, h]
  · simp [step3_gate]
  · intro s2 h hg
    simp only [step3_next, hg, if_true] at h
    cases hb : build_export_rows s.selected_variable_ids with
    | none => rw [hb] at h; simp at h
    | some rows =>
      rw [hb] at h
      simp only [Option.some.injEq] at h
      rw [← h]
      simp [go_next]

/-- C3 witness: with no source selected, the step-2 Next transition leaves
the session unchanged. -/
theorem wizard_gate_transitions_witness :
    step2_next { init_session with step := 2 } = { init_session with step := 2 } :=
  (wizard_gate_transitions { init_session with step := 2 }).2.2.2.1 (by decide)

/-- Helper: every interaction leaves the step unchanged, advances it by
one clamped at 4, or retreats it by one clamped at 1. -/
theorem apply_event_step_mem (s : WizardSession) (e : UIEvent) :
    (apply_event s e).step = s.step ∨ (apply_event s e).step = min (s.step + 1) 4 ∨
      (apply_event s e).step = max (s.step - 1) 1 := by
  cases e with
  | setProjectType pt => exact Or.inl (by simp only [apply_event]; split <;> rfl)
  | setImportedConfig cfg => exact Or.inl (by simp only [apply_event]; split <;> rfl)
  | setSources epic pdms => exact Or.inl (by simp only [apply_event]; split <;> rfl)
  | renderStep3 checked => exact Or.inl (by simp only [apply_event]; split <;> rfl)
  | clickBack =>
    simp only [apply_event]
    split
    · exact Or.inr (Or.inr rfl)
    · exact Or.inl rfl
  | submitAddRow n src i u os g => exact Or.inl (by simp only [apply_event]; split <;> rfl)
  | clickDeleteSelected names => exact Or.inl (by simp only [apply_event]; split <;> rfl)
  | clickNext =>
    simp only [apply_event]
    split
    · simp only [step1_next]
      split
      · refine Or.inr (Or.inl ?_)
        cases himp : s.imported_config <;> simp [preselect_from_import, himp, go_next]
      · exact Or.inl rfl
    · simp only [step2_next]
      split
      · exact Or.inr (Or.inl rfl)
      · exact Or.inl rfl
    · simp only [step3_next]
      split
      · rcases hb : build_export_rows s.selected_variable_ids with _ | rows
        · exact Or.inl rfl
        · exact Or.inr (Or.inl rfl)
      · exact Or.inl rfl
    · exact Or.inl rfl

/-- Helper: running interactions preserves the step range [1, 4]. -/
theorem run_step_range_aux :
    ∀ (es : List UIEvent) (s : WizardSession), 1 ≤ s.step → s.step ≤ 4 →
      1 ≤ (es.foldl apply_event s).step ∧ (es.foldl apply_event s).step ≤ 4 := by
  intro es
  induction es with
  | nil => intro s h1 h4; exact ⟨h1, h4⟩
  | cons e rest ih =>
    intro s h1 h4
    have hr : 1 ≤ (apply_event s e).step ∧ (apply_event s e).step ≤ 4 := by
      rcases apply_event_step_mem s e with h | h | h <;> rw [h] <;> omega
    exact ih _ hr.1 hr.2

/-- C7: `go_back` decrements the step clamped at 1, is exactly what the
Back button performs whenever `step > 1`, and leaves the sources, the
selection and the export table untouched; from the initial session
(step 1), any interaction sequence keeps the step within [1, 4]. -/
theorem retreat_preserves_state_and_step_range :
    (∀ s : WizardSession,
      (go_back s).step = max (s.step - 1) 1 ∧
      (go_back s).project_type = s.project_type ∧
      (go_back s).imported_config = s.imported_config ∧
      (go_back s).selected_sources_epic = s.selected_sources_epic ∧
      (go_back s).selected_sources_pdms = s.selected_sources_pdms ∧
      (go_back s).selected_variable_ids = s.selected_variable_ids ∧
      (go_back s).export_table = s.export_table ∧
      (1 < s.step →
        apply_event s UIEvent.clickBack = go_back s ∧ (go_back s).step = s.step - 1)) ∧
    init_session.step = 1 ∧
    (∀ es : List UIEvent,
      1 ≤ (run_events es).step ∧ (run_events es).step ≤ 4) := by
  refine ⟨?_, rfl, ?_⟩
  · intro s
    refine ⟨rfl, rfl, rfl, rfl, rfl, rfl, rfl, ?_⟩
    intro h
    constructor
    · simp [apply_event, h]
    · simp only [go_back]
      omega
  · intro es
    exact run_step_range_aux es init_session (by decide) (by decide)

/-- C7 witness: clicking Back at step 3 yields step 2 with all other
state intact. -/
theorem retreat_preserves_state_witness :
    apply_event { init_session with step := 3 } UIEvent.clickBack =
      { init_session with step := 2 } := by
  have h :=
    ((retreat_preserves_state_and_step_range.1
        { init_session with step := 3 }).2.2.2.2.2.2.2 (by decide)).1
  rw [h]
  decide

/-- Helper: membership in a mapped list, phrased on the originals. -/
theorem contains_map_eq_any (vs : List String) (f : String → String) (x : String) :
    (vs.map f).contains x = vs.any (fun v => x == f v) := by
  rw [List.contains_eq_any_beq, List.any_map]
  rfl

/-- Helper: no seed catalogue name carries leading or trailing whitespace,
so stripping it is the identity. -/
theorem seed_names_stripped : ∀ r ∈ VARIABLES_CATALOGUE, pyStrip r.name = r.name := by
  decide

/-- C8: round-trip — when the imported configuration is the `Variable`
column of an exported table, advancing from step 1 selects exactly the
catalogue ids whose name matches (case-insensitively, after stripping)
some value of that re-imported column. -/
theorem csv_round_trip_preselection :
    ∀ (table : List ExportRow) (s : WizardSession),
      s.step = 1 →
      s.imported_config = some (export_csv_variables table) →
      (step1_next s).step = 2 ∧
      (step1_next s).selected_variable_ids =
        (VARIABLES_CATALOGUE.filter
          (fun r => (export_csv_variables table).any
            (fun v => pyLower (pyStrip r.name) == pyLower (pyStrip v)))).map
          (fun r => r.id) := by
  intro table s hstep himp
  have hgate : step1_gate s = true := by
    simp [step1_gate, himp]
  have hcong : VARIABLES_CATALOGUE.filter
        (fun r => ((export_csv_variables table).map (fun v => pyLower (pyStrip v))).contains
          (pyLower r.name)) =
      VARIABLES_CATALOGUE.filter
        (fun r => (export_csv_variables table).any
          (fun v => pyLower (pyStrip r.name) == pyLower (pyStrip v))) := by
    refine List.filter_congr ?_
    intro r hr
    rw [contains_map_eq_any, seed_names_stripped r hr]
  constructor
  · simp [step1_next, hgate, preselect_from_import, himp, go_next, hstep]
  · simp only [step1_next, hgate, if_true, preselect_from_import, himp, go_next]
    exact congrArg (List.map (fun r => r.id)) hcong

/-- C8 witness: one exported row whose name round-trips (with different
case and padding) to the catalogue's "Heart Rate". -/
theorem csv_round_trip_preselection_witness :
    (step1_next
        { init_session with
          project_type := "Load existing configuration",
          imported_config := some (export_csv_variables
            [⟨"  HEART rate ", "Both", "X", "bpm", "Cardiology", "Heart",
              "Published"⟩]) }).selected_variable_ids = ["hr-001"] := by
  have h :=
    (csv_round_trip_preselection
        [⟨"  HEART rate ", "Both", "X", "bpm", "Cardiology", "Heart", "Published"⟩]
        { init_session with
          project_type := "Load existing configuration",
          imported_config := some (export_csv_variables
            [⟨"  HEART rate ", "Both", "X", "bpm", "Cardiology", "Heart", "Published"⟩]) }
        rfl rfl).2
  exact h.trans (by decide)

/-- C10 (implicit): rendering step 3 recomputes the selection solely from
the checkbox states of the source-filtered rows — every selected id
afterwards belongs to a record passing the current source filter and has
its checkbox set; an id whose record does not pass the filter (however it
got selected before) is silently dropped; and the result depends only on
the source flags and the checkbox states, not on the rest of the
session. -/
theorem step3_render_selection :
    ∀ (s : WizardSession) (checked : String → Bool),
      (∀ vid ∈ (step3_render checked s).selected_variable_ids,
        ∃ r ∈ filter_catalogue_by_sources s.selected_sources_epic s.selected_sources_pdms,
          r.id = vid ∧ checked vid = true) ∧
      (∀ vid : String,
        (∀ r ∈ filter_catalogue_by_sources s.selected_sources_epic s.selected_sources_pdms,
          r.id ≠ vid) →
        vid ∉ (step3_render checked s).selected_variable_ids) ∧
      (∀ s2 : WizardSession,
        s2.selected_sources_epic = s.selected_sources_epic →
        s2.selected_sources_pdms = s.selected_sources_pdms →
        (step3_render checked s2).selected_variable_ids =
          (step3_render checked s).selected_variable_ids) := by
  intro s checked
  refine ⟨?_, ?_, ?_⟩
  · intro vid hvid
    simp only [step3_render, recompute_selected] at hvid
    rcases List.mem_map.1 hvid with ⟨r, hr, hid⟩
    have hr2 := List.mem_filter.1 hr
    refine ⟨r, hr2.1, hid, ?_⟩
    rw [← hid]
    exact hr2.2
  · intro vid hnone hvid
    simp only [step3_render, recompute_selected] at hvid
    rcases List.mem_map.1 hvid with ⟨r, hr, hid⟩
    exact hnone r (List.mem_filter.1 hr).1 hid
  · intro s2 h1 h2
    simp only [step3_render, recompute_selected, h1, h2]

/-- C10 witness: with only EPIC selected, the PDMS-only id is dropped from
the selection even though its checkbox state reads true. -/
theorem step3_render_selection_witness :
    "mf-pdms-001" ∉ (step3_render (fun _ => true)
        { init_session with
          step := 3,
          selected_sources_epic := true,
          selected_variable_ids := ["mf-pdms-001"] }).selected_variable_ids :=
  (step3_render_selection
      { init_session with
        step := 3,
        selected_sources_epic := true,
        selected_variable_ids := ["mf-pdms-001"] }
      (fun _ => true)).2.1 "mf-pdms-001" (by decide)
